import Mathlib

/-!
Shallow embedding of the OpenClaw Gateway WebSocket client
(`src/lib/openclaw/client.ts`, class `OpenClawClient`).

The client keeps a mutable record: a socket handle `ws`, a reconnect timer,
a pending-request map `pendingRequests` keyed by correlation id, boolean
flags `connected` / `authenticated`, a nullable in-flight connect promise
`connecting`, and an `autoReconnect` flag.  Inbound frames are JSON objects;
the code reads the fields `type`, `id`, `ok`, `error`, `payload`, `result`,
`method`, `params` and `event`.  Payload values are opaque to the client, so
they are modelled by a small inert value type.
-/

namespace OpenClaw

/-- Opaque JSON-ish values: the client never inspects payload/result/params,
so a flat inert value type suffices. -/
inductive Value where
  | vNull
  | vBool (b : Bool)
  | vNum (n : Int)
  | vStr (s : String)
  | vEmptyArr
deriving DecidableEq

/-- Correlation ids: the code types them `string | number`. -/
inductive RpcId where
  | str (s : String)
  | num (n : Int)
deriving DecidableEq

/-- The error object shape the code reads: `data.error.message`. -/
structure ErrObj where
  message : String
deriving DecidableEq

/-- An inbound frame, with exactly the fields `handleMessage` and the
`onmessage` handler read.  `none` models an absent (`undefined`) field. -/
structure Msg where
  type? : Option String
  id? : Option RpcId
  ok? : Option Bool
  error? : Option ErrObj
  payload? : Option Value
  result? : Option Value
  method? : Option String
  params? : Option Value
  event? : Option String
deriving DecidableEq

/-- A frame with every field absent; concrete frames override fields. -/
def emptyMsg : Msg := ⟨none, none, none, none, none, none, none, none, none⟩

/-- What kind of closure a pending entry holds: the authentication
handshake's resolve/reject (registered by the challenge handler in
`connect()`), or an ordinary RPC promise (registered by `call()`). -/
inductive PKind where
  | auth
  | rpc
deriving DecidableEq

/-- One entry of `pendingRequests`: its closure kind plus the method name
captured by the registering call (used by the timeout rejection message). -/
structure PendingEntry where
  kind : PKind
  method : String
deriving DecidableEq

/-- The `pendingRequests` map, as an association list with unique keys
(JS `Map` semantics: `set` replaces, `delete` removes the binding). -/
abbrev PendingMap := List (RpcId × PendingEntry)

/-- `Map.get`. -/
def mapGet : PendingMap → RpcId → Option PendingEntry
  | [], _ => none
  | (k, v) :: rest, i => if k = i then some v else mapGet rest i

/-- `Map.delete` (removes every binding of the key; keys are unique in any
map built by `mapSet`, so at most one exists). -/
def mapDelete : PendingMap → RpcId → PendingMap
  | [], _ => []
  | (k, v) :: rest, i =>
    if k = i then mapDelete rest i else (k, v) :: mapDelete rest i

/-- `Map.set` (key uniqueness is maintained; insertion order of a replaced
key is immaterial to every property below). -/
def mapSet (p : PendingMap) (i : RpcId) (v : PendingEntry) : PendingMap :=
  mapDelete p i ++ [(i, v)]

/-- `Map.has`. -/
def mapHas (p : PendingMap) (i : RpcId) : Bool :=
  (mapGet p i).isSome

/-- How a settled pending request was settled: `resolve(value)` or
`reject(new Error(msg))`. -/
inductive Outcome where
  | resolved (value : Option Value)
  | rejected (msg : String)
deriving DecidableEq

/-- Record of a settlement performed by `handleMessage`: which id, the
entry that was registered there, and the outcome delivered to its closure. -/
structure SettledReq where
  id : RpcId
  entry : PendingEntry
  outcome : Outcome
deriving DecidableEq

/-- EventEmitter emissions performed by `handleMessage`:
`emit('notification', data)` and `emit(data.method, data.params)`. -/
inductive Emit where
  | notif (data : Msg)
  | named (name : String) (params : Option Value)
deriving DecidableEq

/-- Result of `handleMessage`: the new pending map, at most one settlement,
and the emissions, in order. -/
structure HMResult where
  pending : PendingMap
  settled : Option SettledReq
  emits : List Emit
deriving DecidableEq

/-- JS truthiness of an optional string (`undefined` and `""` are falsy). -/
def jsTruthyStr : Option String → Bool
  | none => false
  | some s => !(s == "")

/-- The server-reported message: `data.error.message` (only read when
`data.error` is truthy). -/
def errMsgOf (data : Msg) : String :=
  match data.error? with
  | some e => e.message
  | none => ""

/-- First branch of `handleMessage` (client.ts lines 168-182): if
`data.type === 'res' && data.id !== undefined` and the id is pending,
delete the entry and reject with the server message when
`data.ok === false && data.error`, else resolve with `data.payload`.
Returns `none` when this branch falls through. -/
def typedResBranch? (pending : PendingMap) (data : Msg) : Option HMResult :=
  match data.type?, data.id? with
  | some t, some requestId =>
    if t = "res" then
      match mapGet pending requestId with
      | some entry =>
        let pending' := mapDelete pending requestId
        if data.ok? = some false ∧ data.error?.isSome then
          some ⟨pending', some ⟨requestId, entry, Outcome.rejected (errMsgOf data)⟩, []⟩
        else
          some ⟨pending', some ⟨requestId, entry, Outcome.resolved data.payload?⟩, []⟩
      | none => none
    else none
  | _, _ => none

/-- Second branch (lines 185-196): legacy responses.  The code checks only
`legacyId !== undefined && this.pendingRequests.has(legacyId)`; it rejects
with the server message when `data.error` is truthy, else resolves with
`data.result`. -/
def legacyBranch? (pending : PendingMap) (data : Msg) : Option HMResult :=
  match data.id? with
  | some legacyId =>
    match mapGet pending legacyId with
    | some entry =>
      let pending' := mapDelete pending legacyId
      if data.error?.isSome then
        some ⟨pending', some ⟨legacyId, entry, Outcome.rejected (errMsgOf data)⟩, []⟩
      else
        some ⟨pending', some ⟨legacyId, entry, Outcome.resolved data.result?⟩, []⟩
    | none => none
  | none => none

/-- Third branch (lines 199-202): `if (data.method)` emit the generic
notification with the whole frame, then emit under the method name with
`data.params`. -/
def eventEmits (data : Msg) : List Emit :=
  if jsTruthyStr data.method? then
    [Emit.notif data, Emit.named (data.method?.getD "") data.params?]
  else []

/-- `OpenClawClient.handleMessage` (lines 166-203), with the code's
fall-through: the typed branch returns only when it found a pending entry;
otherwise the legacy branch runs; otherwise the event branch. -/
def handleMessage (pending : PendingMap) (data : Msg) : HMResult :=
  match typedResBranch? pending data with
  | some r => r
  | none =>
    match legacyBranch? pending data with
    | some r => r
    | none => ⟨pending, none, eventEmits data⟩

/-! ## Client state and operations -/

/-- WebSocket readyState. -/
inductive ReadyState where
  | rsConnecting
  | rsOpen
  | rsClosing
  | rsClosed
deriving DecidableEq

/-- The mutable fields of `OpenClawClient`.  `ws = none` models a null
handle (equivalently, handlers detached as in `disconnect()`);
`reconnectTimer = some d` models an armed timer with delay `d` ms;
`connecting` models the nullable in-flight connect promise. -/
structure ClientState where
  ws : Option ReadyState
  reconnectTimer : Option Nat
  pending : PendingMap
  connected : Bool
  authenticated : Bool
  connecting : Bool
  autoReconnect : Bool
deriving DecidableEq

/-- Field initializers of the class (lines 10-17). -/
def initState : ClientState :=
  ⟨none, none, [], false, false, false, true⟩

/-- An outbound request frame, as far as the claims need it. -/
structure ReqFrame where
  id : RpcId
  method : String
deriving DecidableEq

/-- What a `connect()` call did synchronously. -/
inductive ConnectResult where
  | alreadyConnected
  | joinedExisting
  | startedNew
deriving DecidableEq

/-- Synchronous body of `connect()` (lines 27-64): return immediately if
`connected && ws open`; return the in-flight promise if `connecting`; else
discard any old socket, open a fresh one (readyState CONNECTING) and set
the in-flight marker. -/
def connectCall (s : ClientState) : ClientState × ConnectResult :=
  if s.connected = true ∧ s.ws = some ReadyState.rsOpen then
    (s, ConnectResult.alreadyConnected)
  else if s.connecting = true then
    (s, ConnectResult.joinedExisting)
  else
    ({ s with ws := some ReadyState.rsConnecting, connecting := true },
     ConnectResult.startedNew)

/-- `onopen` (lines 69-74): the socket becomes OPEN; nothing is sent. -/
def sockOpen (s : ClientState) : ClientState :=
  match s.ws with
  | some ReadyState.rsConnecting => { s with ws := some ReadyState.rsOpen }
  | _ => s

/-- The fixed reconnect delay (line 219): 10000 ms. -/
def reconnectDelayMs : Nat := 10000

/-- `scheduleReconnect` (lines 205-220): no-op when a timer is armed or
auto-reconnect is off; else arm one timer with the fixed delay. -/
def scheduleReconnect (s : ClientState) : ClientState :=
  if s.reconnectTimer.isSome ∨ s.autoReconnect = false then s
  else { s with reconnectTimer := some reconnectDelayMs }

/-- `onclose` (lines 76-89), which fires only while a handle with attached
handlers exists: record `wasConnected`, clear both flags and the in-flight
marker, and schedule a reconnect iff `autoReconnect && wasConnected`. -/
def sockClose (s : ClientState) : ClientState :=
  match s.ws with
  | none => s
  | some _ =>
    if s.autoReconnect = true ∧ s.connected = true then
      scheduleReconnect
        { s with ws := some ReadyState.rsClosed,
                 connected := false, authenticated := false, connecting := false }
    else
      { s with ws := some ReadyState.rsClosed,
               connected := false, authenticated := false, connecting := false }

/-- `onerror` (lines 91-99): while not connected, clear the in-flight
marker (and reject the attempt). -/
def sockError (s : ClientState) : ClientState :=
  match s.ws with
  | none => s
  | some _ => if s.connected = false then { s with connecting := false } else s

/-- `ws.close()` on a handle: CLOSED stays CLOSED, otherwise CLOSING
(the CLOSED transition is the later `onclose` event). -/
def wsCloseRS : ReadyState → ReadyState
  | ReadyState.rsClosed => ReadyState.rsClosed
  | _ => ReadyState.rsClosing

/-- Effects of the closures stored for the authentication request
(lines 130-144): on resolve, set both flags, clear the in-flight marker
(and resolve the outer `connect()`); on reject, clear the in-flight marker
and close the socket.  RPC entries' closures settle only their own
promise. -/
def applyAuthEffects (s : ClientState) : Option SettledReq → ClientState
  | some ⟨_, ⟨PKind.auth, _⟩, Outcome.resolved _⟩ =>
    { s with connected := true, authenticated := true, connecting := false }
  | some ⟨_, ⟨PKind.auth, _⟩, Outcome.rejected _⟩ =>
    { s with connecting := false, ws := s.ws.map wsCloseRS }
  | some ⟨_, ⟨PKind.rpc, _⟩, _⟩ => s
  | none => s

/-- The pending entry registered by the challenge handler (method
`connect`, auth closures). -/
def authEntry : PendingEntry := ⟨PKind.auth, "connect"⟩

/-- Observable output of delivering one inbound frame. -/
structure DeliverOut where
  sends : List ReqFrame
  settled : Option SettledReq
  emits : List Emit
deriving DecidableEq

/-- Output of a delivery that did nothing. -/
def noDeliverOut : DeliverOut := ⟨[], none, []⟩

/-- `onmessage` (lines 101-156): frames arrive only on an OPEN socket.
A `{"type":"event","event":"connect.challenge"}` frame registers a fresh
auth pending entry and sends the credentialed `connect` request (no guard
against repetition); every other frame goes to `handleMessage`, whose
settlement of an auth entry additionally runs the stored auth closures. -/
def deliver (s : ClientState) (data : Msg) (freshId : RpcId) :
    ClientState × DeliverOut :=
  if s.ws = some ReadyState.rsOpen then
    if data.type? = some "event" ∧ data.event? = some "connect.challenge" then
      ({ s with pending := mapSet s.pending freshId authEntry },
       ⟨[⟨freshId, "connect"⟩], none, []⟩)
    else
      (applyAuthEffects { s with pending := (handleMessage s.pending data).pending }
         (handleMessage s.pending data).settled,
       ⟨[], (handleMessage s.pending data).settled,
        (handleMessage s.pending data).emits⟩)
  else (s, noDeliverOut)

/-- What a `call()` invocation did synchronously. -/
inductive CallResult where
  | failed (msg : String)
  | started (id : RpcId)
deriving DecidableEq

/-- Result of the synchronous part of `call()`. -/
structure CallOut where
  state : ClientState
  result : CallResult
  sends : List ReqFrame
deriving DecidableEq

/-- `call(method, params)` (lines 222-243): throw a not-connected error
when `!this.ws || !this.connected || !this.authenticated`; else register a
fresh pending entry, arm the per-call timeout and send the request. -/
def callOp (s : ClientState) (method : String) (freshId : RpcId) : CallOut :=
  if s.ws = none ∨ s.connected = false ∨ s.authenticated = false then
    ⟨s, CallResult.failed "Not connected to OpenClaw Gateway", []⟩
  else
    ⟨{ s with pending := mapSet s.pending freshId ⟨PKind.rpc, method⟩ },
     CallResult.started freshId, [⟨freshId, method⟩]⟩

/-- The per-call timeout callback (lines 234-239): if the id is still
pending, delete it and reject with a message naming the method; else do
nothing.  Returns the rejection message when one was issued. -/
def callTimeoutOp (s : ClientState) (i : RpcId) : ClientState × Option String :=
  match mapGet s.pending i with
  | some e =>
    ({ s with pending := mapDelete s.pending i },
     some ("Request timeout: " ++ e.method))
  | none => (s, none)

/-- The reconnect timer callback (lines 208-219): clear the timer field,
return if auto-reconnect was disabled meanwhile, else attempt `connect()`. -/
def reconnectFireState (s : ClientState) : ClientState :=
  match s.reconnectTimer with
  | none => s
  | some _ =>
    if s.autoReconnect = true then
      (connectCall { s with reconnectTimer := none }).1
    else
      { s with reconnectTimer := none }

/-- `disconnect()` (lines 335-349): disable auto-reconnect, cancel any
reconnect timer, detach handlers and close/null the socket, clear both
flags and the in-flight marker.  `pendingRequests` is not touched. -/
def disconnectOp (s : ClientState) : ClientState :=
  { s with autoReconnect := false, reconnectTimer := none, ws := none,
           connected := false, authenticated := false, connecting := false }

/-- `setAutoReconnect(enabled)` (lines 355-361). -/
def setAutoReconnectOp (s : ClientState) (enabled : Bool) : ClientState :=
  if enabled then { s with autoReconnect := true }
  else { s with autoReconnect := false, reconnectTimer := none }

/-- `true` iff the handle exists and its readyState is OPEN. -/
def wsIsOpen (s : ClientState) : Bool :=
  match s.ws with
  | some ReadyState.rsOpen => true
  | _ => false

/-- `isConnected()` (lines 351-353):
`connected && authenticated && ws?.readyState === OPEN`. -/
def isConnected (s : ClientState) : Bool :=
  s.connected && s.authenticated && wsIsOpen s

/-! ## Event-loop steps and reachability -/

/-- One event-loop turn of the client: each constructor is one handler or
public operation the source defines.  Fresh ids are parameters (the code draws
them from `crypto.randomUUID()`). -/
inductive Step where
  | sConnect
  | sOpen
  | sClose
  | sError
  | sDeliver (data : Msg) (freshId : RpcId)
  | sCall (method : String) (freshId : RpcId)
  | sCallTimeout (id : RpcId)
  | sReconnectFire
  | sReconnectRetry
  | sDisconnect
  | sSetAutoReconnect (enabled : Bool)
deriving DecidableEq

/-- State effect of one step. -/
def stepState (s : ClientState) : Step → ClientState
  | Step.sConnect => (connectCall s).1
  | Step.sOpen => sockOpen s
  | Step.sClose => sockClose s
  | Step.sError => sockError s
  | Step.sDeliver data freshId => (deliver s data freshId).1
  | Step.sCall method freshId => (callOp s method freshId).state
  | Step.sCallTimeout i => (callTimeoutOp s i).1
  | Step.sReconnectFire => reconnectFireState s
  | Step.sReconnectRetry => scheduleReconnect s
  | Step.sDisconnect => disconnectOp s
  | Step.sSetAutoReconnect b => setAutoReconnectOp s b

/-- Run a list of steps from a state. -/
def runSteps (s : ClientState) (es : List Step) : ClientState :=
  es.foldl stepState s

/-- Steps that re-enable auto-reconnect. -/
def reenables : Step → Bool
  | Step.sSetAutoReconnect true => true
  | _ => false

/-- `true` iff taking this step from this state makes the reconnect timer
callback actually invoke `connect()` (timer armed and auto-reconnect on). -/
def firesReconnectAt (s : ClientState) : Step → Bool
  | Step.sReconnectFire => s.reconnectTimer.isSome && s.autoReconnect
  | _ => false

/-- `true` iff some step of the trace performs a reconnect attempt. -/
def anyFire : ClientState → List Step → Bool
  | _, [] => false
  | s, e :: es => firesReconnectAt s e || anyFire (stepState s e) es

/-! ## Map lemmas -/

theorem mapGet_mapDelete_self (p : PendingMap) (i : RpcId) :
    mapGet (mapDelete p i) i = none := by
  induction p with
  | nil => rfl
  | cons kv rest ih =>
    obtain ⟨k, v⟩ := kv
    by_cases h : k = i
    · simpa [mapDelete, h] using ih
    · simp [mapDelete, mapGet, h, ih]

theorem mapGet_mapDelete_ne (p : PendingMap) (i j : RpcId) (h : j ≠ i) :
    mapGet (mapDelete p i) j = mapGet p j := by
  induction p with
  | nil => rfl
  | cons kv rest ih =>
    obtain ⟨k, v⟩ := kv
    by_cases hk : k = i
    · subst hk
      simp [mapDelete, mapGet, Ne.symm h, ih]
    · by_cases hkj : k = j
      · subst hkj
        simp [mapDelete, mapGet, hk]
      · simp [mapDelete, mapGet, hk, hkj, ih]

theorem mapGet_mapSet_self (p : PendingMap) (i : RpcId) (v : PendingEntry) :
    mapGet (mapSet p i v) i = some v := by
  unfold mapSet
  induction p with
  | nil => simp [mapDelete, mapGet]
  | cons kv rest ih =>
    obtain ⟨k, w⟩ := kv
    by_cases h : k = i
    · simpa [mapDelete, h] using ih
    · simp [mapDelete, mapGet, h, ih]

theorem mapGet_mapSet_ne (p : PendingMap) (i j : RpcId) (v : PendingEntry)
    (h : j ≠ i) :
    mapGet (mapSet p i v) j = mapGet p j := by
  unfold mapSet
  induction p with
  | nil => simp [mapDelete, mapGet, Ne.symm h]
  | cons kv rest ih =>
    obtain ⟨k, w⟩ := kv
    by_cases hk : k = i
    · subst hk
      simp [mapDelete, mapGet, Ne.symm h, ih]
    · by_cases hkj : k = j
      · subst hkj
        simp [mapDelete, mapGet, hk]
      · simp [mapDelete, mapGet, hk, hkj, ih]

/-! ## handleMessage characterizations -/

theorem handleMessage_typed_hit (pending : PendingMap) (data : Msg)
    (i : RpcId) (e : PendingEntry)
    (htype : data.type? = some "res") (hid : data.id? = some i)
    (hpend : mapGet pending i = some e) :
    handleMessage pending data =
      if data.ok? = some false ∧ data.error?.isSome then
        ⟨mapDelete pending i, some ⟨i, e, Outcome.rejected (errMsgOf data)⟩, []⟩
      else
        ⟨mapDelete pending i, some ⟨i, e, Outcome.resolved data.payload?⟩, []⟩ := by
  have h1 : typedResBranch? pending data =
      some (if data.ok? = some false ∧ data.error?.isSome then
        ⟨mapDelete pending i, some ⟨i, e, Outcome.rejected (errMsgOf data)⟩, []⟩
      else
        ⟨mapDelete pending i, some ⟨i, e, Outcome.resolved data.payload?⟩, []⟩) := by
    unfold typedResBranch?
    rw [htype, hid]
    simp [hpend]
    split <;> rfl
  unfold handleMessage
  rw [h1]

theorem typedResBranch?_none_of_no_match (pending : PendingMap) (data : Msg)
    (hid : ∀ j, data.id? = some j → mapGet pending j = none) :
    typedResBranch? pending data = none := by
  unfold typedResBranch?
  cases ht : data.type? with
  | none => cases hi : data.id? <;> rfl
  | some t =>
    cases hi : data.id? with
    | none => rfl
    | some j =>
      by_cases hres : t = "res"
      · simp [hres, hid j hi]
      · simp [hres]

theorem legacyBranch?_none_of_no_match (pending : PendingMap) (data : Msg)
    (hid : ∀ j, data.id? = some j → mapGet pending j = none) :
    legacyBranch? pending data = none := by
  unfold legacyBranch?
  cases hi : data.id? with
  | none => rfl
  | some j => simp [hid j hi]

theorem handleMessage_no_match (pending : PendingMap) (data : Msg)
    (hid : ∀ j, data.id? = some j → mapGet pending j = none) :
    handleMessage pending data = ⟨pending, none, eventEmits data⟩ := by
  unfold handleMessage
  rw [typedResBranch?_none_of_no_match pending data hid,
      legacyBranch?_none_of_no_match pending data hid]

theorem handleMessage_inert (pending : PendingMap) (data : Msg)
    (hid : ∀ j, data.id? = some j → mapGet pending j = none)
    (hm : jsTruthyStr data.method? = false) :
    handleMessage pending data = ⟨pending, none, []⟩ := by
  rw [handleMessage_no_match pending data hid]
  unfold eventEmits
  rw [hm]
  rfl

theorem applyAuthEffects_none (s : ClientState) :
    applyAuthEffects s none = s := rfl

/-- A frame with `type:"res"`, an id matching no pending entry and a falsy
`method` field leaves the whole client untouched when delivered. -/
theorem deliver_unmatched_res_noop (s : ClientState) (data : Msg) (fid : RpcId)
    (htype : data.type? = some "res")
    (hid : ∀ j, data.id? = some j → mapGet s.pending j = none)
    (hm : jsTruthyStr data.method? = false) :
    deliver s data fid = (s, noDeliverOut) := by
  unfold deliver
  split
  · split
    · next hch =>
      exfalso
      rw [htype] at hch
      exact absurd hch.1 (by decide)
    · rw [handleMessage_inert s.pending data hid hm]
      rfl
  · rfl

/-! ## Claim theorems -/

/-- C1: when a frame with `type:"res"` and an id matching a pending request
arrives, `handleMessage` removes that entry from the pending map and
settles it exactly once: it resolves the entry's closure with the frame's
`payload` when the response indicates success (`ok:true`), and rejects it
with an error whose message is exactly the server-reported error message
when `ok:false` with an error object (e.g. message `boom` rejects with
`boom`); redelivering the same frame settles nothing. -/
theorem C1_matching_response_settles (pending : PendingMap) (data : Msg)
    (i : RpcId) (e : PendingEntry)
    (htype : data.type? = some "res") (hid : data.id? = some i)
    (hpend : mapGet pending i = some e) :
    (handleMessage pending data).pending = mapDelete pending i ∧
    mapGet (handleMessage pending data).pending i = none ∧
    (data.ok? = some true →
      (handleMessage pending data).settled =
        some ⟨i, e, Outcome.resolved data.payload?⟩) ∧
    (∀ er, data.ok? = some false → data.error? = some er →
      (handleMessage pending data).settled =
        some ⟨i, e, Outcome.rejected er.message⟩) ∧
    (handleMessage (handleMessage pending data).pending data).settled = none := by
  have hchar := handleMessage_typed_hit pending data i e htype hid hpend
  have hpend' : (handleMessage pending data).pending = mapDelete pending i := by
    rw [hchar]; split <;> rfl
  have hnone : mapGet (handleMessage pending data).pending i = none := by
    rw [hpend']; exact mapGet_mapDelete_self pending i
  refine ⟨hpend', hnone, ?_, ?_, ?_⟩
  · intro hok
    rw [hchar]
    have : ¬(data.ok? = some false ∧ data.error?.isSome) := by
      intro hc; rw [hok] at hc; exact absurd hc.1 (by simp)
    rw [if_neg this]
  · intro er hok herr
    rw [hchar]
    have hc : data.ok? = some false ∧ data.error?.isSome := by
      exact ⟨hok, by rw [herr]; rfl⟩
    rw [if_pos hc]
    unfold errMsgOf
    rw [herr]
  · rw [hpend']
    have hfun : ∀ j, data.id? = some j → mapGet (mapDelete pending i) j = none := by
      intro j hj
      rw [hid] at hj
      injection hj with hj
      rw [← hj]
      exact mapGet_mapDelete_self pending i
    rw [handleMessage_no_match (mapDelete pending i) data hfun]

/-- C1 witness: the spec's scenario — a response `ok:false` with error
message `boom` for pending id `x` rejects that request with exactly
`boom`. -/
theorem C1_matching_response_settles_witness :
    (handleMessage [(RpcId.str "x", ⟨PKind.rpc, "m"⟩)]
        { emptyMsg with
          type? := some "res"
          id? := some (RpcId.str "x")
          ok? := some false
          error? := some ⟨"boom"⟩ }).settled
      = some ⟨RpcId.str "x", ⟨PKind.rpc, "m"⟩, Outcome.rejected "boom"⟩ :=
  (C1_matching_response_settles
    [(RpcId.str "x", ⟨PKind.rpc, "m"⟩)]
    { emptyMsg with
      type? := some "res"
      id? := some (RpcId.str "x")
      ok? := some false
      error? := some ⟨"boom"⟩ }
    (RpcId.str "x") ⟨PKind.rpc, "m"⟩ rfl rfl (by decide)).2.2.2.1
    ⟨"boom"⟩ rfl rfl

/-- C2: `connect()` is idempotent: if already connected over an open
socket it returns success immediately with no state change; if an attempt
is in flight it joins that attempt with no state change (hence no second
socket and no second handshake); and immediately after a call that started
a new attempt, any further call joins it. -/
theorem C2_connect_idempotent (s : ClientState) :
    (s.connected = true → s.authenticated = true →
      s.ws = some ReadyState.rsOpen →
      connectCall s = (s, ConnectResult.alreadyConnected)) ∧
    (s.connecting = true → ¬(s.connected = true ∧ s.ws = some ReadyState.rsOpen) →
      connectCall s = (s, ConnectResult.joinedExisting)) ∧
    (∀ s', connectCall s = (s', ConnectResult.startedNew) →
      connectCall s' = (s', ConnectResult.joinedExisting)) := by
  refine ⟨?_, ?_, ?_⟩
  · intro hc _ hw
    unfold connectCall
    rw [if_pos ⟨hc, hw⟩]
  · intro hcg hno
    unfold connectCall
    rw [if_neg hno, if_pos hcg]
  · intro s' h
    unfold connectCall at h
    by_cases c1 : s.connected = true ∧ s.ws = some ReadyState.rsOpen
    · rw [if_pos c1] at h
      exact absurd (congrArg Prod.snd h) (by simp)
    · rw [if_neg c1] at h
      by_cases c2 : s.connecting = true
      · rw [if_pos c2] at h
        exact absurd (congrArg Prod.snd h) (by simp)
      · rw [if_neg c2] at h
        have hs' : s' = { s with ws := some ReadyState.rsConnecting,
                                 connecting := true } :=
          (congrArg Prod.fst h).symm
        subst hs'
        unfold connectCall
        rw [if_neg (by simp), if_pos rfl]

/-- C2 witness: on an authenticated client with an open socket, a further
`connect()` returns success with no effect; and on a client with an
attempt in flight, a further `connect()` joins it. -/
theorem C2_connect_idempotent_witness :
    connectCall ⟨some ReadyState.rsOpen, none, [], true, true, false, true⟩
      = (⟨some ReadyState.rsOpen, none, [], true, true, false, true⟩,
         ConnectResult.alreadyConnected) ∧
    connectCall ⟨some ReadyState.rsConnecting, none, [], false, false, true, true⟩
      = (⟨some ReadyState.rsConnecting, none, [], false, false, true, true⟩,
         ConnectResult.joinedExisting) :=
  ⟨(C2_connect_idempotent
      ⟨some ReadyState.rsOpen, none, [], true, true, false, true⟩).1 rfl rfl rfl,
   (C2_connect_idempotent
      ⟨some ReadyState.rsConnecting, none, [], false, false, true, true⟩).2.1
      rfl (by decide)⟩

/-- C4: for every method and fresh id, a `call()` issued while the client
lacks a socket handle, is not connected or is not authenticated fails
immediately with the not-connected error, performs no send, and leaves the
whole state — in particular the pending-request map — unchanged. -/
theorem C4_call_requires_auth (s : ClientState) (method : String) (fid : RpcId)
    (h : s.ws = none ∨ s.connected = false ∨ s.authenticated = false) :
    callOp s method fid =
      ⟨s, CallResult.failed "Not connected to OpenClaw Gateway", []⟩ := by
  unfold callOp
  rw [if_pos h]

/-- C4 witness: a `call()` on a freshly constructed client fails with the
not-connected error, sends nothing and changes nothing. -/
theorem C4_call_requires_auth_witness :
    callOp initState "sessions.list" (RpcId.str "w")
      = ⟨initState, CallResult.failed "Not connected to OpenClaw Gateway", []⟩ :=
  C4_call_requires_auth initState "sessions.list" (RpcId.str "w")
    (Or.inl rfl)

/-- C5: when the per-call timeout for a pending id fires, the entry is
removed at that moment and the call is rejected with a request-timeout
error naming the registered method; afterwards a response frame bearing
that id is a no-op: delivering it settles nothing and changes no client
state. -/
theorem C5_timeout_then_late_response_noop (s : ClientState) (i : RpcId)
    (e : PendingEntry) (hpend : mapGet s.pending i = some e) :
    (callTimeoutOp s i).1.pending = mapDelete s.pending i ∧
    (callTimeoutOp s i).2 = some ("Request timeout: " ++ e.method) ∧
    (∀ data fid, data.type? = some "res" → data.id? = some i →
      jsTruthyStr data.method? = false →
      deliver (callTimeoutOp s i).1 data fid = ((callTimeoutOp s i).1, noDeliverOut)) := by
  have hop : callTimeoutOp s i =
      ({ s with pending := mapDelete s.pending i },
       some ("Request timeout: " ++ e.method)) := by
    unfold callTimeoutOp
    rw [hpend]
  refine ⟨by rw [hop], by rw [hop], ?_⟩
  intro data fid htype hid hm
  apply deliver_unmatched_res_noop
  · exact htype
  · intro j hj
    rw [hid] at hj
    injection hj with hj
    rw [← hj, hop]
    exact mapGet_mapDelete_self s.pending i
  · exact hm

/-- C5 witness: with one pending `sessions.list` request of id `x`, the
timeout removes it and rejects with `Request timeout: sessions.list`, and
a late response for `x` then leaves the client untouched. -/
theorem C5_timeout_then_late_response_noop_witness :
    (callTimeoutOp
        ⟨some ReadyState.rsOpen, none,
         [(RpcId.str "x", ⟨PKind.rpc, "sessions.list"⟩)],
         true, true, false, true⟩ (RpcId.str "x")).2
      = some "Request timeout: sessions.list" ∧
    deliver (callTimeoutOp
        ⟨some ReadyState.rsOpen, none,
         [(RpcId.str "x", ⟨PKind.rpc, "sessions.list"⟩)],
         true, true, false, true⟩ (RpcId.str "x")).1
      { emptyMsg with
        type? := some "res"
        id? := some (RpcId.str "x")
        ok? := some true }
      (RpcId.str "y")
      = ((callTimeoutOp
          ⟨some ReadyState.rsOpen, none,
           [(RpcId.str "x", ⟨PKind.rpc, "sessions.list"⟩)],
           true, true, false, true⟩ (RpcId.str "x")).1, noDeliverOut) :=
  ⟨(C5_timeout_then_late_response_noop
      ⟨some ReadyState.rsOpen, none,
       [(RpcId.str "x", ⟨PKind.rpc, "sessions.list"⟩)],
       true, true, false, true⟩ (RpcId.str "x")
      ⟨PKind.rpc, "sessions.list"⟩ (by decide)).2.1,
   (C5_timeout_then_late_response_noop
      ⟨some ReadyState.rsOpen, none,
       [(RpcId.str "x", ⟨PKind.rpc, "sessions.list"⟩)],
       true, true, false, true⟩ (RpcId.str "x")
      ⟨PKind.rpc, "sessions.list"⟩ (by decide)).2.2
      { emptyMsg with
        type? := some "res"
        id? := some (RpcId.str "x")
        ok? := some true }
      (RpcId.str "y") rfl rfl rfl⟩

/-- C6 counterexample: a reachable client (connect, open, challenge,
successful authentication, one in-flight `sessions.list` call) still has a
non-empty pending-request map after `disconnect()` — `disconnect()` does
not clear `pendingRequests`, refuting "all client state is cleared —
including ... the pending-request map". -/
theorem C6_disconnect_cex :
    (disconnectOp (runSteps initState
      [Step.sConnect, Step.sOpen,
       Step.sDeliver { emptyMsg with type? := some "event", event? := some "connect.challenge" } (RpcId.str "a"),
       Step.sDeliver { emptyMsg with type? := some "res", id? := some (RpcId.str "a"), ok? := some true } (RpcId.num 0),
       Step.sCall "sessions.list" (RpcId.str "b")])).pending
      = [(RpcId.str "b", ⟨PKind.rpc, "sessions.list"⟩)] := by decide

/-- C6 (amended): `disconnect()`, from any client state, is a total
operation after which the socket handle is torn down, auto-reconnect is
disabled with any reconnect timer cancelled, and the session flags and the
in-flight-attempt marker are cleared; the pending-request map, however, is
left exactly as it was (entries disappear only via responses or their own
timeouts). -/
theorem C6_disconnect_amended (s : ClientState) :
    (disconnectOp s).ws = none ∧
    (disconnectOp s).autoReconnect = false ∧
    (disconnectOp s).reconnectTimer = none ∧
    (disconnectOp s).connected = false ∧
    (disconnectOp s).authenticated = false ∧
    (disconnectOp s).connecting = false ∧
    (disconnectOp s).pending = s.pending :=
  ⟨rfl, rfl, rfl, rfl, rfl, rfl, rfl⟩

/-- C7 counterexample: a frame carrying `type:"event"` — a type other than
`res` — together with an id matching a pending request IS resolved against
the pending-request map (through the legacy branch, which never looks at
`type`), refuting "a message that does carry a type other than `res` is
never resolved against the pending-request map". -/
theorem C7_discrimination_cex :
    handleMessage [(RpcId.str "x", ⟨PKind.rpc, "m"⟩)]
        { emptyMsg with type? := some "event", id? := some (RpcId.str "x"), result? := some (Value.vNum 5) }
      = ⟨[], some ⟨RpcId.str "x", ⟨PKind.rpc, "m"⟩,
           Outcome.resolved (some (Value.vNum 5))⟩, []⟩ := by decide

/-- C7 (amended): typed responses take precedence — `type:"res"` with a
matching id is handled by the typed branch — and a message is treated as a
legacy RPC response (settled the same way as a typed Response: rejected
with the server error message when an error object is present, else
resolved with `result`) exactly when it carries an id matching a pending
request and was not handled by the typed branch; the legacy branch ignores
the `type` field, so any non-`res` type (including event frames) with a
matching id is also resolved this way. -/
theorem C7_legacy_discrimination (pending : PendingMap) (data : Msg)
    (i : RpcId) (e : PendingEntry)
    (hid : data.id? = some i) (hpend : mapGet pending i = some e)
    (htype : data.type? ≠ some "res") :
    handleMessage pending data =
      if data.error?.isSome then
        ⟨mapDelete pending i, some ⟨i, e, Outcome.rejected (errMsgOf data)⟩, []⟩
      else
        ⟨mapDelete pending i, some ⟨i, e, Outcome.resolved data.result?⟩, []⟩ := by
  have h1 : typedResBranch? pending data = none := by
    unfold typedResBranch?
    cases ht : data.type? with
    | none => cases data.id? <;> rfl
    | some t =>
      cases data.id? with
      | none => rfl
      | some j =>
        have : ¬t = "res" := by
          intro hc
          exact htype (by rw [ht, hc])
        simp [this]
  have h2 : legacyBranch? pending data =
      some (if data.error?.isSome then
        ⟨mapDelete pending i, some ⟨i, e, Outcome.rejected (errMsgOf data)⟩, []⟩
      else
        ⟨mapDelete pending i, some ⟨i, e, Outcome.resolved data.result?⟩, []⟩) := by
    unfold legacyBranch?
    rw [hid]
    simp [hpend]
    split <;> rfl
  unfold handleMessage
  rw [h1, h2]

/-- C7 witness: a legacy frame without any `type` field and with a
matching pending id resolves that request with its `result`. -/
theorem C7_legacy_discrimination_witness :
    handleMessage [(RpcId.str "x", ⟨PKind.rpc, "m"⟩)]
        { emptyMsg with id? := some (RpcId.str "x"), result? := some Value.vEmptyArr }
      = ⟨[], some ⟨RpcId.str "x", ⟨PKind.rpc, "m"⟩,
           Outcome.resolved (some Value.vEmptyArr)⟩, []⟩ := by
  have h := C7_legacy_discrimination
    [(RpcId.str "x", ⟨PKind.rpc, "m"⟩)]
    { emptyMsg with id? := some (RpcId.str "x"), result? := some Value.vEmptyArr }
    (RpcId.str "x") ⟨PKind.rpc, "m"⟩ rfl (by decide) (by decide)
  simpa using h

/-- C8 counterexample: a typed event frame
`{"type":"event","event":"agent.update"}` (no `method` field, no id) is
NOT dispatched to any subscriber — `handleMessage` keys dispatch on the
`method` field only, so the delivery emits nothing and changes nothing,
refuting "in particular this holds for typed event frames". -/
theorem C8_event_frame_cex :
    deliver ⟨some ReadyState.rsOpen, none, [], true, true, false, true⟩
        { emptyMsg with type? := some "event", event? := some "agent.update" }
        (RpcId.str "z")
      = (⟨some ReadyState.rsOpen, none, [], true, true, false, true⟩,
         noDeliverOut) := by decide

/-- C8 (amended): every inbound message whose `method` field is a
non-empty string and whose id matches no pending request is dispatched to
all generic notification subscribers (receiving the whole frame) and
additionally to subscribers registered under that method name (receiving
the message's params); typed event frames identified only by an `event`
field are not dispatched (the sole `event` frame acted on is
`connect.challenge`, which drives the handshake instead). -/
theorem C8_dispatch_amended (pending : PendingMap) (data : Msg) (m : String)
    (hm : data.method? = some m) (hne : ¬m = "")
    (hid : ∀ j, data.id? = some j → mapGet pending j = none) :
    handleMessage pending data =
      ⟨pending, none, [Emit.notif data, Emit.named m data.params?]⟩ := by
  rw [handleMessage_no_match pending data hid]
  simp [eventEmits, hm, jsTruthyStr, hne]

/-- C8 witness: a `method`-bearing frame with no id reaches both the
generic notification channel and the `chat.message` channel with its
params. -/
theorem C8_dispatch_amended_witness :
    handleMessage []
        { emptyMsg with method? := some "chat.message", params? := some (Value.vStr "hi") }
      = ⟨[], none,
         [Emit.notif { emptyMsg with method? := some "chat.message", params? := some (Value.vStr "hi") },
          Emit.named "chat.message" (some (Value.vStr "hi"))]⟩ :=
  C8_dispatch_amended []
    { emptyMsg with method? := some "chat.message", params? := some (Value.vStr "hi") }
    "chat.message" rfl (by decide) (fun _ hj => Option.noConfusion hj)

/-- C9 counterexample: in a reachable mid-handshake state (connect, open,
first challenge already answered) a second `connect.challenge` frame DOES
trigger a further handshake request: the delivery sends another `connect`
request and registers another pending auth entry, refuting "a second
challenge ... triggers no further handshake request and no send". -/
theorem C9_second_challenge_cex :
    (deliver (runSteps initState
        [Step.sConnect, Step.sOpen,
         Step.sDeliver { emptyMsg with type? := some "event", event? := some "connect.challenge" } (RpcId.str "a")])
        { emptyMsg with type? := some "event", event? := some "connect.challenge" }
        (RpcId.str "c")).2.sends
      = [⟨RpcId.str "c", "connect"⟩] := by decide

/-- C9 (amended): each `connect.challenge` frame delivered on an open
socket — including a second one mid-handshake — triggers a fresh handshake
request and send, registering an additional pending auth entry; a response
frame referencing an id with no pending request is dropped silently: no
error, no settlement, no emission and no state change. -/
theorem C9_anomalies_amended (s : ClientState) (data : Msg) (fid : RpcId) :
    (s.ws = some ReadyState.rsOpen →
      data.type? = some "event" → data.event? = some "connect.challenge" →
      deliver s data fid =
        ({ s with pending := mapSet s.pending fid authEntry },
         ⟨[⟨fid, "connect"⟩], none, []⟩)) ∧
    (data.type? = some "res" →
      (∀ j, data.id? = some j → mapGet s.pending j = none) →
      jsTruthyStr data.method? = false →
      deliver s data fid = (s, noDeliverOut)) := by
  constructor
  · intro hw htype hev
    unfold deliver
    rw [if_pos hw, if_pos ⟨htype, hev⟩]
  · intro htype hid hm
    exact deliver_unmatched_res_noop s data fid htype hid hm

/-- C9 witness: in a mid-handshake state with pending auth id `a`, a
second challenge sends another `connect` request, and a response with
unknown id `zz` is dropped with no state change. -/
theorem C9_anomalies_amended_witness :
    deliver ⟨some ReadyState.rsOpen, none, [(RpcId.str "a", authEntry)], false, false, true, true⟩
        { emptyMsg with type? := some "event", event? := some "connect.challenge" }
        (RpcId.str "c")
      = (⟨some ReadyState.rsOpen, none,
          mapSet [(RpcId.str "a", authEntry)] (RpcId.str "c") authEntry,
          false, false, true, true⟩,
         ⟨[⟨RpcId.str "c", "connect"⟩], none, []⟩) ∧
    deliver ⟨some ReadyState.rsOpen, none, [(RpcId.str "a", authEntry)], false, false, true, true⟩
        { emptyMsg with type? := some "res", id? := some (RpcId.str "zz") }
        (RpcId.str "c")
      = (⟨some ReadyState.rsOpen, none, [(RpcId.str "a", authEntry)], false, false, true, true⟩,
         noDeliverOut) :=
  ⟨(C9_anomalies_amended
      ⟨some ReadyState.rsOpen, none, [(RpcId.str "a", authEntry)], false, false, true, true⟩
      { emptyMsg with type? := some "event", event? := some "connect.challenge" }
      (RpcId.str "c")).1 rfl rfl rfl,
   (C9_anomalies_amended
      ⟨some ReadyState.rsOpen, none, [(RpcId.str "a", authEntry)], false, false, true, true⟩
      { emptyMsg with type? := some "res", id? := some (RpcId.str "zz") }
      (RpcId.str "c")).2 rfl
      (fun j hj => by
        injection hj with h
        rw [← h]
        decide) rfl⟩

/-! ## Step-machine invariants -/

theorem flagsEq_step (s : ClientState) (e : Step)
    (h : s.connected = s.authenticated) :
    (stepState s e).connected = (stepState s e).authenticated := by
  cases e with
  | sConnect =>
    simp only [stepState]
    unfold connectCall
    split
    · exact h
    · split
      · exact h
      · exact h
  | sOpen =>
    simp only [stepState]
    unfold sockOpen
    split
    · exact h
    · exact h
  | sClose =>
    simp only [stepState]
    unfold sockClose
    split
    · exact h
    · split
      · unfold scheduleReconnect
        split
        · rfl
        · rfl
      · rfl
  | sError =>
    simp only [stepState]
    unfold sockError
    split
    · exact h
    · split
      · exact h
      · exact h
  | sDeliver data fid =>
    simp only [stepState]
    unfold deliver
    split
    · split
      · exact h
      · cases hsr : (handleMessage s.pending data).settled with
        | none => exact h
        | some sr =>
          obtain ⟨i, ⟨k, m⟩, out⟩ := sr
          cases k with
          | auth =>
            cases out with
            | resolved v => rfl
            | rejected me => exact h
          | rpc => cases out <;> exact h
    · exact h
  | sCall method fid =>
    simp only [stepState]
    unfold callOp
    split
    · exact h
    · exact h
  | sCallTimeout i =>
    simp only [stepState]
    unfold callTimeoutOp
    split
    · exact h
    · exact h
  | sReconnectFire =>
    simp only [stepState]
    unfold reconnectFireState
    split
    · exact h
    · split
      · unfold connectCall
        split
        · exact h
        · split
          · exact h
          · exact h
      · exact h
  | sReconnectRetry =>
    simp only [stepState]
    unfold scheduleReconnect
    split
    · exact h
    · exact h
  | sDisconnect => rfl
  | sSetAutoReconnect b =>
    simp only [stepState]
    unfold setAutoReconnectOp
    split
    · exact h
    · exact h

theorem flagsEq_runSteps (es : List Step) :
    ∀ s : ClientState, s.connected = s.authenticated →
      (runSteps s es).connected = (runSteps s es).authenticated := by
  induction es with
  | nil => intro s h; exact h
  | cons e es ih =>
    intro s h
    exact ih (stepState s e) (flagsEq_step s e h)

/-- A state where auto-reconnect is off and no timer is armed. -/
def reconnectOff (s : ClientState) : Prop :=
  s.autoReconnect = false ∧ s.reconnectTimer = none

theorem reconnectOff_step (s : ClientState) (e : Step)
    (he : reenables e = false) (h : reconnectOff s) :
    reconnectOff (stepState s e) ∧ firesReconnectAt s e = false := by
  obtain ⟨ha, ht⟩ := h
  cases e with
  | sConnect =>
    refine ⟨?_, rfl⟩
    simp only [stepState]
    unfold connectCall
    split
    · exact ⟨ha, ht⟩
    · split
      · exact ⟨ha, ht⟩
      · exact ⟨ha, ht⟩
  | sOpen =>
    refine ⟨?_, rfl⟩
    simp only [stepState]
    unfold sockOpen
    split
    · exact ⟨ha, ht⟩
    · exact ⟨ha, ht⟩
  | sClose =>
    refine ⟨?_, rfl⟩
    simp only [stepState]
    unfold sockClose
    split
    · exact ⟨ha, ht⟩
    · split
      · next hcond => rw [ha] at hcond; exact absurd hcond.1 (by decide)
      · exact ⟨ha, ht⟩
  | sError =>
    refine ⟨?_, rfl⟩
    simp only [stepState]
    unfold sockError
    split
    · exact ⟨ha, ht⟩
    · split
      · exact ⟨ha, ht⟩
      · exact ⟨ha, ht⟩
  | sDeliver data fid =>
    refine ⟨?_, rfl⟩
    simp only [stepState]
    unfold deliver
    split
    · split
      · exact ⟨ha, ht⟩
      · cases hsr : (handleMessage s.pending data).settled with
        | none => exact ⟨ha, ht⟩
        | some sr =>
          obtain ⟨i, ⟨k, m⟩, out⟩ := sr
          cases k with
          | auth => cases out <;> exact ⟨ha, ht⟩
          | rpc => cases out <;> exact ⟨ha, ht⟩
    · exact ⟨ha, ht⟩
  | sCall method fid =>
    refine ⟨?_, rfl⟩
    simp only [stepState]
    unfold callOp
    split
    · exact ⟨ha, ht⟩
    · exact ⟨ha, ht⟩
  | sCallTimeout i =>
    refine ⟨?_, rfl⟩
    simp only [stepState]
    unfold callTimeoutOp
    split
    · exact ⟨ha, ht⟩
    · exact ⟨ha, ht⟩
  | sReconnectFire =>
    refine ⟨?_, ?_⟩
    · simp only [stepState]
      unfold reconnectFireState
      rw [ht]
      exact ⟨ha, ht⟩
    · simp only [firesReconnectAt]
      rw [ha]
      simp
  | sReconnectRetry =>
    refine ⟨?_, rfl⟩
    simp only [stepState]
    unfold scheduleReconnect
    split
    · exact ⟨ha, ht⟩
    · next hcond =>
      exfalso
      exact hcond (Or.inr ha)
  | sDisconnect => exact ⟨⟨rfl, rfl⟩, rfl⟩
  | sSetAutoReconnect b =>
    refine ⟨?_, rfl⟩
    cases b with
    | true => exact absurd he (by simp [reenables])
    | false =>
      simp only [stepState]
      unfold setAutoReconnectOp
      exact ⟨rfl, rfl⟩

theorem reconnectOff_runSteps (es : List Step) :
    ∀ s : ClientState, (∀ e ∈ es, reenables e = false) → reconnectOff s →
      reconnectOff (runSteps s es) ∧ anyFire s es = false := by
  induction es with
  | nil => intro s _ h; exact ⟨h, rfl⟩
  | cons e es ih =>
    intro s hes h
    have he : reenables e = false := hes e (List.mem_cons_self e es)
    have hstep := reconnectOff_step s e he h
    have hrest := ih (stepState s e)
      (fun e' he' => hes e' (List.mem_cons_of_mem e he')) hstep.1
    refine ⟨hrest.1, ?_⟩
    simp only [anyFire]
    rw [hstep.2, hrest.2]
    rfl

/-- C3: a reconnect is scheduled exactly when the socket closes while the
session is connected (i.e. after authentication) with auto-reconnect
enabled: a close while not connected, or with auto-reconnect disabled,
leaves the reconnect timer untouched; a close while connected with
auto-reconnect on and no timer armed arms exactly one timer with the
configured 10000 ms delay (and keeps the single existing timer if one is
already armed, so never a second one); and after an
explicit `disconnect()`, along any continuation that never re-enables
auto-reconnect, auto-reconnect stays off, no timer is ever armed and no
reconnect attempt ever occurs — even when armed timers would have
elapsed. -/
theorem C3_reconnect_scheduling (s : ClientState) :
    (∀ w, s.ws = some w → s.connected = false →
      (sockClose s).reconnectTimer = s.reconnectTimer) ∧
    (∀ w, s.ws = some w → s.autoReconnect = false →
      (sockClose s).reconnectTimer = s.reconnectTimer) ∧
    (∀ w, s.ws = some w → s.connected = true → s.autoReconnect = true →
      s.reconnectTimer = none →
      (sockClose s).reconnectTimer = some reconnectDelayMs) ∧
    (∀ w d, s.ws = some w → s.connected = true → s.autoReconnect = true →
      s.reconnectTimer = some d →
      (sockClose s).reconnectTimer = some d) ∧
    (∀ es, (∀ e ∈ es, reenables e = false) →
      (runSteps (disconnectOp s) es).autoReconnect = false ∧
      (runSteps (disconnectOp s) es).reconnectTimer = none ∧
      anyFire (disconnectOp s) es = false) := by
  refine ⟨?_, ?_, ?_, ?_, ?_⟩
  · intro w hw hc
    simp [sockClose, hw, hc]
  · intro w hw ha
    simp [sockClose, hw, ha]
  · intro w hw hc ha ht
    simp [sockClose, hw, hc, ha, scheduleReconnect, ht]
  · intro w d hw hc ha ht
    simp [sockClose, hw, hc, ha, scheduleReconnect, ht]
  · intro es hes
    have h := reconnectOff_runSteps es (disconnectOp s) hes ⟨rfl, rfl⟩
    exact ⟨h.1.1, h.1.2, h.2⟩

/-- C3 witness: on an authenticated client, a socket close arms one 10000
ms reconnect timer; and on a client whose timer is armed, `disconnect()`
followed by the timer's expiry performs no reconnect attempt. -/
theorem C3_reconnect_scheduling_witness :
    (sockClose ⟨some ReadyState.rsOpen, none, [], true, true, false, true⟩).reconnectTimer
      = some reconnectDelayMs ∧
    anyFire (disconnectOp ⟨some ReadyState.rsOpen, some 10000, [], true, true, false, true⟩)
      [Step.sReconnectFire] = false :=
  ⟨(C3_reconnect_scheduling
      ⟨some ReadyState.rsOpen, none, [], true, true, false, true⟩).2.2.1
      ReadyState.rsOpen rfl rfl rfl rfl,
   ((C3_reconnect_scheduling
      ⟨some ReadyState.rsOpen, some 10000, [], true, true, false, true⟩).2.2.2.2
      [Step.sReconnectFire]
      (fun e he => by rw [List.mem_singleton] at he; subst he; rfl)).2.2⟩

/-- C10: in every state reachable from the fresh client by any sequence of
event-loop steps, the `connected` and `authenticated` flags are equal —
every operation that sets or clears one sets or clears the other at the
same point — and consequently `isConnected()` is equivalent to
authenticated-and-socket-open. -/
theorem C10_flags_coupled (es : List Step) :
    (runSteps initState es).connected = (runSteps initState es).authenticated ∧
    (isConnected (runSteps initState es) = true ↔
      (runSteps initState es).authenticated = true ∧
      wsIsOpen (runSteps initState es) = true) := by
  have h := flagsEq_runSteps es initState rfl
  refine ⟨h, ?_⟩
  unfold isConnected
  constructor
  · intro hc
    simp only [Bool.and_eq_true] at hc
    exact ⟨hc.1.2, hc.2⟩
  · rintro ⟨hauth, hw⟩
    simp [Bool.and_eq_true, hauth, hw, h]

end OpenClaw
